import Mathlib

/-!
Verification of the hotel-ink guest registry (`src/lib.rs`).

The contract stores a map of guests keyed by a `u32` identifier together
with a pool (`Vec<u32>`) of available room numbers.  We embed the storage
struct and the five messages (`add_guest`, `get_guest`, `update_guest`,
`delete_guest`, `list_available_rooms`) plus the internal helper
`convert_timestamp` as executable Lean definitions, translated line by
line from the Rust source.  Machine integers (`u32`, `u64`, `i64`) are
modelled as `Nat`/`Int`; no arithmetic in the contract can overflow, and
the places in `convert_timestamp` where Rust checks ranges explicitly
(`to_i64`, `checked_sub`, `from_timestamp_opt`) are modelled with
`Option` and the exact bounds.
-/

deriving instance DecidableEq for Except

namespace HotelSpec

/-- `PaymentMethod` enum from the contract; `Credit` is the `#[default]`. -/
inductive PaymentMethod where
  | Credit
  | Cash
  | Pix
deriving DecidableEq, Repr

/-- The `Guest` storage struct. `checkin` is the raw `u64` block timestamp. -/
structure Guest where
  id : Nat
  name : String
  email : String
  payment : PaymentMethod
  checkin : Nat
  room : Nat
deriving DecidableEq, Repr

/-- Rust `char::is_whitespace`: membership in the Unicode `White_Space` set. -/
def isRustWhitespace (c : Char) : Bool :=
  c.val = 0x09 || c.val = 0x0A || c.val = 0x0B || c.val = 0x0C || c.val = 0x0D ||
  c.val = 0x20 || c.val = 0x85 || c.val = 0xA0 || c.val = 0x1680 ||
  (0x2000 ≤ c.val && c.val ≤ 0x200A) ||
  c.val = 0x2028 || c.val = 0x2029 || c.val = 0x202F || c.val = 0x205F || c.val = 0x3000

/-- Rust `s.trim().is_empty()`: `trim` strips leading and trailing whitespace,
so the trimmed string is empty exactly when every character is whitespace. -/
def trimEmpty (s : String) : Bool :=
  s.data.all isRustWhitespace

/-- Lookup in the guest mapping (`self.guests.get(id)` of `ink::storage::Mapping`). -/
def mGet (m : List (Nat × Guest)) (k : Nat) : Option Guest :=
  match m with
  | [] => none
  | (k2, v) :: rest => if k2 = k then some v else mGet rest k

/-- Removal from the guest mapping (`self.guests.remove(id)`). -/
def mRemove (m : List (Nat × Guest)) (k : Nat) : List (Nat × Guest) :=
  m.filter (fun p => p.1 != k)

/-- Insertion into the guest mapping (`self.guests.insert(k, &v)`), which
overwrites any previous value stored under `k`. -/
def mInsert (m : List (Nat × Guest)) (k : Nat) (v : Guest) : List (Nat × Guest) :=
  (k, v) :: mRemove m k

/-! ## `convert_timestamp` and its chrono collaborators -/

def i64Max : Int := 9223372036854775807

def i64Min : Int := -9223372036854775808

/-- `ToPrimitive::to_i64` on a `u64` value: succeeds iff the value fits in `i64`. -/
def toI64 (n : Nat) : Option Int :=
  if (n : Int) ≤ i64Max then some (n : Int) else none

/-- `i64::checked_sub`: `None` exactly when the difference overflows `i64`. -/
def checkedSub (a b : Int) : Option Int :=
  if i64Min ≤ a - b ∧ a - b ≤ i64Max then a - b else none

/-- Proleptic-Gregorian civil date `(year, month, day)` of the day `z` days
after 1970-01-01 (the calendar mapping chrono's `NaiveDateTime` realises). -/
def civilFromDays (z : Int) : Int × Int × Int :=
  let zd := z + 719468
  let era := Int.ediv zd 146097
  let doe := zd - era * 146097
  let yoe := Int.ediv (doe - Int.ediv doe 1460 + Int.ediv doe 36524 - Int.ediv doe 146096) 365
  let y := yoe + era * 400
  let doy := doe - (365 * yoe + Int.ediv yoe 4 - Int.ediv yoe 100)
  let mp := Int.ediv (5 * doy + 2) 153
  let d := doy - Int.ediv (153 * mp + 2) 5 + 1
  let m := if mp < 10 then mp + 3 else mp - 9
  (y + (if m ≤ 2 then 1 else 0), m, d)

/-- Days from 1970-01-01 to civil date `(y, m, d)` (inverse of `civilFromDays`). -/
def daysFromCivil (y m d : Int) : Int :=
  let ya := y - (if m ≤ 2 then 1 else 0)
  let era := Int.ediv ya 400
  let yoe := ya - era * 400
  let doy := Int.ediv (153 * (if m > 2 then m - 3 else m + 9) + 2) 5 + d - 1
  let doe := yoe * 365 + Int.ediv yoe 4 - Int.ediv yoe 100 + doy
  era * 146097 + doe - 719468

/-- Smallest timestamp representable by chrono's `NaiveDateTime`
(`-262144-01-01T00:00:00`). -/
def naiveMinTs : Int := 86400 * daysFromCivil (-262144) 1 1

/-- Largest whole-second timestamp representable by chrono's `NaiveDateTime`
(`+262143-12-31T23:59:59`). -/
def naiveMaxTs : Int := 86400 * daysFromCivil 262143 12 31 + 86399

/-- chrono `NaiveDateTime::from_timestamp_opt(secs, 0)`: `Some` iff the
instant lies in chrono's representable date range. -/
def fromTimestampOpt (secs : Int) : Option Int :=
  if naiveMinTs ≤ secs ∧ secs ≤ naiveMaxTs then some secs else none

/-- Two-digit zero-padded rendering (arguments are in `[0, 60)` resp. `[1, 31]`). -/
def pad2 (n : Int) : String :=
  (if n < 10 then "0" else "") ++ toString n

/-- Four-digit zero-padded rendering for years `0..=9999`. -/
def pad4 (n : Int) : String :=
  (if n < 10 then "000" else if n < 100 then "00" else if n < 1000 then "0" else "") ++
    toString n

/-- Year field of chrono's RFC 3339 output: four digits, with an explicit
sign for years outside `0..=9999`. -/
def formatYear (y : Int) : String :=
  if y < 0 then "-" ++ pad4 (-y)
  else if y ≤ 9999 then pad4 y
  else "+" ++ toString y

/-- `DateTime::<Utc>::to_rfc3339` of the instant `secs` seconds after the epoch:
`"YYYY-MM-DDTHH:MM:SS+00:00"`. -/
def toRfc3339 (secs : Int) : String :=
  let days := Int.ediv secs 86400
  let sod := Int.emod secs 86400
  let c := civilFromDays days
  formatYear c.1 ++ "-" ++ pad2 c.2.1 ++ "-" ++ pad2 c.2.2 ++ "T" ++
    pad2 (Int.ediv sod 3600) ++ ":" ++ pad2 (Int.emod (Int.ediv sod 60) 60) ++ ":" ++
    pad2 (Int.emod sod 60) ++ "+00:00"

/-- `convert_timestamp` (lines 178-187): milliseconds to seconds, `to_i64`
with fallback `0`, `checked_sub` of the fixed 3-hour offset with fallback `0`,
`from_timestamp_opt` with fallback epoch, then RFC 3339 rendering. -/
def convert_timestamp (timestamp : Nat) : String :=
  let t1 := (toI64 (timestamp / 1000)).getD 0
  let t2 := (checkedSub t1 (3 * 3600)).getD 0
  let naive := (fromTimestampOpt t2).getD 0
  toRfc3339 naive

/-! ## The storage struct and the contract messages -/

/-- The `#[ink(storage)]` struct: guest mapping plus the `Vec<u32>` room pool. -/
structure HotelInk where
  guests : List (Nat × Guest)
  rooms : List Nat
deriving DecidableEq, Repr

namespace HotelInk

/-- The constructor: empty guest map, rooms `1..=20` pushed in ascending order. -/
def default : HotelInk :=
  { guests := [], rooms := List.range' 1 20 }

/-- `add_guest`.  The block timestamp read from `self.env().block_timestamp()`
is passed in as the extra argument `ts`.  Returns the updated storage paired
with the `Result<(), String>` of the call. -/
def add_guest (st : HotelInk) (ts : Nat) (id : Nat) (name email : String)
    (payment : PaymentMethod) (room : Nat) : HotelInk × Except String Unit :=
  if ¬ st.rooms.contains room then
    (st, .error "Room not available")
  else if id ≤ 99999999 ∨ id > 999999999 then
    (st, .error "Invalid RG")
  else if trimEmpty name then
    (st, .error "Empty name")
  else if trimEmpty email then
    (st, .error "Empty email!")
  else
    let new : Guest := { id := id, name := name, email := email,
                         payment := payment, checkin := ts, room := room }
    ({ guests := mInsert st.guests id new,
       rooms := st.rooms.filter (fun r => r != room) }, .ok ())

/-- `get_guest`: view of the stored record with the check-in timestamp rendered
through `convert_timestamp`. -/
def get_guest (st : HotelInk) (id : Nat) :
    Option (Nat × String × String × PaymentMethod × String × Nat) :=
  (mGet st.guests id).map (fun guest =>
    (guest.id, guest.name, guest.email, guest.payment,
     convert_timestamp guest.checkin, guest.room))

/-- Tail of `update_guest` from the `room` branch on (lines 144-160): the
`payment` and `room` branches followed by the final re-insertion. -/
def update_tail (st : HotelInk) (guest : Guest)
    (payment : Option PaymentMethod) (room : Option Nat) :
    HotelInk × Except String Bool :=
  let guest1 := match payment with
    | some p => { guest with payment := p }
    | none => guest
  match room with
  | some r =>
    if ¬ st.rooms.contains r then
      (st, .error "Room not available")
    else
      let rooms1 := st.rooms.filter (fun x => x != r) ++ [guest1.room]
      let guest2 := { guest1 with room := r }
      ({ guests := mInsert st.guests guest2.id guest2, rooms := rooms1 }, .ok true)
  | none =>
    ({ st with guests := mInsert st.guests guest1.id guest1 }, .ok true)

/-- Middle of `update_guest` (lines 128-142): the `name` and `email` branches.
`st` is the storage as already mutated by the `new_id` branch. -/
def update_mid (st : HotelInk) (guest : Guest) (name email : Option String)
    (payment : Option PaymentMethod) (room : Option Nat) :
    HotelInk × Except String Bool :=
  match name with
  | some n =>
    if trimEmpty n then (st, .error "Empty name")
    else
      match email with
      | some e =>
        if trimEmpty e then (st, .error "Empty email!")
        else update_tail st { guest with name := n, email := e } payment room
      | none => update_tail st { guest with name := n } payment room
  | none =>
    match email with
    | some e =>
      if trimEmpty e then (st, .error "Empty email!")
      else update_tail st { guest with email := e } payment room
    | none => update_tail st guest payment room

/-- `update_guest` (lines 109-164).  Note two faithfully kept oddities of the
source: the identifier check in the `new_id` branch tests the OLD key `id`
rather than the supplied `new_id`, and the record is removed from its old key
before the later field validations run. -/
def update_guest (st : HotelInk) (id : Nat) (new_id : Option Nat)
    (name email : Option String) (payment : Option PaymentMethod)
    (room : Option Nat) : HotelInk × Except String Bool :=
  match mGet st.guests id with
  | none => (st, .error "Guest not found")
  | some guest =>
    match new_id with
    | some nid =>
      if id ≤ 99999999 ∨ id > 999999999 then
        (st, .error "Invalid RG")
      else
        update_mid { st with guests := mRemove st.guests id }
          { guest with id := nid } name email payment room
    | none => update_mid st guest name email payment room

/-- `delete_guest` (lines 167-175). -/
def delete_guest (st : HotelInk) (id : Nat) : HotelInk × Except String Bool :=
  match mGet st.guests id with
  | none => (st, .error "Guest not found")
  | some guest =>
    ({ guests := mRemove st.guests id, rooms := st.rooms ++ [guest.room] }, .ok true)

/-- `list_available_rooms` (lines 190-192): a clone of the pool. -/
def list_available_rooms (st : HotelInk) : List Nat :=
  st.rooms

end HotelInk

/-! ## Operation sequences and invariants -/

/-- One external call to the contract (the constructor is the start state). -/
inductive Op where
  | addOp (ts id : Nat) (name email : String) (payment : PaymentMethod) (room : Nat)
  | updateOp (id : Nat) (new_id : Option Nat) (name email : Option String)
      (payment : Option PaymentMethod) (room : Option Nat)
  | deleteOp (id : Nat)

/-- The storage left behind by one call (errors leave whatever the call
already mutated, exactly as `&mut self` does). -/
def applyOp (st : HotelInk) : Op → HotelInk
  | .addOp ts id name email payment room => (st.add_guest ts id name email payment room).1
  | .updateOp id nid name email payment room =>
      (st.update_guest id nid name email payment room).1
  | .deleteOp id => (st.delete_guest id).1

/-- Storage after running a sequence of calls from the constructor. -/
def runOps (ops : List Op) : HotelInk :=
  ops.foldl applyOp HotelInk.default

/-- Room numbers referenced by stored guests. -/
def occupiedRooms (st : HotelInk) : List Nat :=
  st.guests.map (fun p => p.2.room)

/-- Invariant I1, decidably: every room in `1..=20` is in the pool XOR
occupied by a stored guest, and no other room number occurs anywhere. -/
def roomInvariant (st : HotelInk) : Bool :=
  (List.range' 1 20).all
      (fun r => st.rooms.contains r != (occupiedRooms st).contains r) &&
    st.rooms.all (fun r => 1 ≤ r && r ≤ 20) &&
    (occupiedRooms st).all (fun r => 1 ≤ r && r ≤ 20)

/-- Every stored record's key is its own `id` field. -/
def mapCoherent (m : List (Nat × Guest)) : Prop :=
  ∀ k g, mGet m k = some g → g.id = k

/-! ## Map lemmas -/

theorem mGet_mRemove (m : List (Nat × Guest)) (k k2 : Nat) :
    mGet (mRemove m k) k2 = if k = k2 then none else mGet m k2 := by
  induction m with
  | nil => simp [mRemove, mGet]
  | cons p rest ih =>
    rcases p with ⟨k1, v⟩
    simp only [mRemove, List.filter_cons] at ih ⊢
    by_cases h : k1 = k
    · subst h
      rw [if_neg (by simp)]
      rw [ih]
      by_cases h2 : k1 = k2
      · subst h2
        simp
      · rw [if_neg h2, if_neg h2]
        simp [mGet, h2]
    · rw [if_pos (by simpa using h)]
      simp only [mGet]
      rw [ih]
      by_cases h2 : k1 = k2
      · subst h2
        rw [if_pos rfl, if_neg (Ne.symm h), if_pos rfl]
      · rw [if_neg h2, if_neg h2]

theorem mGet_mInsert (m : List (Nat × Guest)) (k k2 : Nat) (v : Guest) :
    mGet (mInsert m k v) k2 = if k = k2 then some v else mGet m k2 := by
  simp only [mInsert, mGet, mGet_mRemove]
  by_cases h : k = k2 <;> simp [h]

theorem mGet_mem (m : List (Nat × Guest)) (k : Nat) (g : Guest)
    (h : mGet m k = some g) : (k, g) ∈ m := by
  induction m with
  | nil => simp [mGet] at h
  | cons p rest ih =>
    rcases p with ⟨k1, v⟩
    simp only [mGet] at h
    by_cases hk : k1 = k
    · subst hk
      rw [if_pos rfl] at h
      cases h
      exact List.mem_cons_self _ _
    · rw [if_neg hk] at h
      exact List.mem_cons_of_mem _ (ih h)

theorem mapCoherent_mRemove (m : List (Nat × Guest)) (k : Nat)
    (h : mapCoherent m) : mapCoherent (mRemove m k) := by
  intro k2 g hg
  rw [mGet_mRemove] at hg
  split at hg
  · exact absurd hg (by simp)
  · exact h k2 g hg

theorem mapCoherent_mInsert (m : List (Nat × Guest)) (k : Nat) (v : Guest)
    (hv : v.id = k) (h : mapCoherent m) : mapCoherent (mInsert m k v) := by
  intro k2 g hg
  rw [mGet_mInsert] at hg
  split at hg
  · rename_i hk
    cases hg
    cases hk
    exact hv
  · exact h k2 g hg

/-! ## Key coherence is preserved by every call -/

theorem update_tail_coherent (st : HotelInk) (g : Guest)
    (payment : Option PaymentMethod) (room : Option Nat)
    (h : mapCoherent st.guests) :
    mapCoherent (HotelInk.update_tail st g payment room).1.guests := by
  cases payment with
  | none =>
    cases room with
    | none => exact mapCoherent_mInsert _ _ _ rfl h
    | some r =>
      simp only [HotelInk.update_tail]
      split
      · exact h
      · exact mapCoherent_mInsert _ _ _ rfl h
  | some p =>
    cases room with
    | none => exact mapCoherent_mInsert _ _ _ rfl h
    | some r =>
      simp only [HotelInk.update_tail]
      split
      · exact h
      · exact mapCoherent_mInsert _ _ _ rfl h

theorem update_mid_coherent (st : HotelInk) (g : Guest) (name email : Option String)
    (payment : Option PaymentMethod) (room : Option Nat)
    (h : mapCoherent st.guests) :
    mapCoherent (HotelInk.update_mid st g name email payment room).1.guests := by
  cases name with
  | none =>
    cases email with
    | none => exact update_tail_coherent _ _ _ _ h
    | some e =>
      simp only [HotelInk.update_mid]
      split
      · exact h
      · exact update_tail_coherent _ _ _ _ h
  | some n =>
    cases email with
    | none =>
      simp only [HotelInk.update_mid]
      split
      · exact h
      · exact update_tail_coherent _ _ _ _ h
    | some e =>
      simp only [HotelInk.update_mid]
      split
      · exact h
      · split
        · exact h
        · exact update_tail_coherent _ _ _ _ h

theorem update_guest_coherent (st : HotelInk) (id : Nat) (new_id : Option Nat)
    (name email : Option String) (payment : Option PaymentMethod)
    (room : Option Nat) (h : mapCoherent st.guests) :
    mapCoherent (st.update_guest id new_id name email payment room).1.guests := by
  unfold HotelInk.update_guest
  cases hg : mGet st.guests id with
  | none => exact h
  | some g =>
    cases new_id with
    | none => exact update_mid_coherent _ _ _ _ _ _ h
    | some nid =>
      by_cases hid : id ≤ 99999999 ∨ id > 999999999
      · simpa [hid] using h
      · simpa [hid] using
          update_mid_coherent { st with guests := mRemove st.guests id }
            { g with id := nid } name email payment room (mapCoherent_mRemove _ _ h)

theorem add_guest_coherent (st : HotelInk) (ts id : Nat) (name email : String)
    (payment : PaymentMethod) (room : Nat) (h : mapCoherent st.guests) :
    mapCoherent (st.add_guest ts id name email payment room).1.guests := by
  unfold HotelInk.add_guest
  split
  · exact h
  · split
    · exact h
    · split
      · exact h
      · split
        · exact h
        · exact mapCoherent_mInsert _ _ _ rfl h

theorem delete_guest_coherent (st : HotelInk) (id : Nat)
    (h : mapCoherent st.guests) :
    mapCoherent (st.delete_guest id).1.guests := by
  unfold HotelInk.delete_guest
  cases hg : mGet st.guests id with
  | none => exact h
  | some g => exact mapCoherent_mRemove _ _ h

theorem applyOp_coherent (st : HotelInk) (op : Op) (h : mapCoherent st.guests) :
    mapCoherent (applyOp st op).guests := by
  cases op with
  | addOp ts id name email payment room => exact add_guest_coherent _ _ _ _ _ _ _ h
  | updateOp id nid name email payment room =>
    exact update_guest_coherent _ _ _ _ _ _ _ h
  | deleteOp id => exact delete_guest_coherent _ _ h

theorem foldl_coherent (ops : List Op) (st : HotelInk) (h : mapCoherent st.guests) :
    mapCoherent (ops.foldl applyOp st).guests := by
  induction ops generalizing st with
  | nil => exact h
  | cons op rest ih => exact ih _ (applyOp_coherent st op h)

/-- C10: after any sequence of calls from the constructor, every stored guest
record sits under the key equal to its own `id` field, so `get_guest k` never
returns a view whose id component differs from `k`. -/
theorem runOps_key_coherent (ops : List Op) (k : Nat) :
    (∀ g, mGet (runOps ops).guests k = some g → g.id = k) ∧
    (∀ v, (runOps ops).get_guest k = some v → v.1 = k) := by
  have h : mapCoherent (runOps ops).guests :=
    foldl_coherent ops HotelInk.default (fun k2 g hg => by simp [HotelInk.default, mGet] at hg)
  refine ⟨fun g hg => h k g hg, fun v hv => ?_⟩
  unfold HotelInk.get_guest at hv
  cases hg : mGet (runOps ops).guests k with
  | none => rw [hg] at hv; simp at hv
  | some g =>
    rw [hg] at hv
    simp only [Option.map_some', Option.some.injEq] at hv
    rw [← hv]
    exact h k g hg

/-- Witness for C10 at a concrete one-call sequence. -/
theorem runOps_key_coherent_witness :
    (Guest.mk 123456789 "Ana" "a@x.com" .Credit 0 5).id = 123456789 :=
  (runOps_key_coherent [Op.addOp 0 123456789 "Ana" "a@x.com" .Credit 5] 123456789).1
    (Guest.mk 123456789 "Ana" "a@x.com" .Credit 0 5) (by decide)

/-- C4: `add_guest` checks its preconditions in the order room, id, name,
email, each failure returning that precondition's error, and any error leaves
the storage (guest map and room pool) exactly as it was. -/
theorem add_guest_precondition_order (st : HotelInk) (ts id : Nat)
    (name email : String) (payment : PaymentMethod) (room : Nat) :
    (∀ e, (st.add_guest ts id name email payment room).2 = .error e →
      (st.add_guest ts id name email payment room).1 = st) ∧
    (st.rooms.contains room = false →
      (st.add_guest ts id name email payment room).2 = .error "Room not available") ∧
    (st.rooms.contains room = true → id ≤ 99999999 ∨ 999999999 < id →
      (st.add_guest ts id name email payment room).2 = .error "Invalid RG") ∧
    (st.rooms.contains room = true → 99999999 < id → id ≤ 999999999 →
      trimEmpty name = true →
      (st.add_guest ts id name email payment room).2 = .error "Empty name") ∧
    (st.rooms.contains room = true → 99999999 < id → id ≤ 999999999 →
      trimEmpty name = false → trimEmpty email = true →
      (st.add_guest ts id name email payment room).2 = .error "Empty email!") := by
  refine ⟨?_, ?_, ?_, ?_, ?_⟩
  · unfold HotelInk.add_guest
    split
    · intro e _; rfl
    · split
      · intro e _; rfl
      · split
        · intro e _; rfl
        · split
          · intro e _; rfl
          · intro e he; exact absurd he (by simp)
  · intro h1
    unfold HotelInk.add_guest
    rw [if_pos (by simp_all)]
  · intro h1 h2
    unfold HotelInk.add_guest
    rw [if_neg (by simp_all), if_pos h2]
  · intro h1 h2 h3 h4
    unfold HotelInk.add_guest
    rw [if_neg (by simp_all), if_neg (by omega), if_pos h4]
  · intro h1 h2 h3 h4 h5
    unfold HotelInk.add_guest
    rw [if_neg (by simp_all), if_neg (by omega), if_neg (by simp [h4]), if_pos h5]

/-- Witness for C4: a room outside the pool is rejected with
`"Room not available"` and the storage is untouched. -/
theorem add_guest_precondition_order_witness :
    (HotelInk.default.add_guest 0 123456789 "Ana" "a@x.com" .Credit 999).2 =
        .error "Room not available" ∧
    (HotelInk.default.add_guest 0 123456789 "Ana" "a@x.com" .Credit 999).1 =
        HotelInk.default :=
  ⟨(add_guest_precondition_order HotelInk.default 0 123456789 "Ana" "a@x.com"
      .Credit 999).2.1 (by decide),
   (add_guest_precondition_order HotelInk.default 0 123456789 "Ana" "a@x.com"
      .Credit 999).1 "Room not available"
     ((add_guest_precondition_order HotelInk.default 0 123456789 "Ana" "a@x.com"
        .Credit 999).2.1 (by decide))⟩

/-- C5: from a fresh registry, `add_guest(123456789, "Ana", "a@x.com", Credit, 5)`
succeeds; `get_guest 123456789` then returns the view with room `5`, payment
`Credit` and the check-in string rendered from the timestamp captured at the
add call; and room `5` is absent from `list_available_rooms`. -/
theorem add_get_round_trip (ts : Nat) :
    (HotelInk.default.add_guest ts 123456789 "Ana" "a@x.com" .Credit 5).2 = .ok () ∧
    (HotelInk.default.add_guest ts 123456789 "Ana" "a@x.com" .Credit 5).1.get_guest
        123456789 =
      some (123456789, "Ana", "a@x.com", .Credit, convert_timestamp ts, 5) ∧
    ((HotelInk.default.add_guest ts 123456789 "Ana" "a@x.com"
        .Credit 5).1.list_available_rooms).contains 5 = false :=
  ⟨rfl, rfl, rfl⟩

/-- C6: `delete_guest` fails with `"Guest not found"` leaving the state
unchanged when the id is absent; otherwise it removes the record, appends its
room to the pool, returns `true`, and a subsequent `get_guest` finds nothing. -/
theorem delete_guest_spec (st : HotelInk) (id : Nat) :
    (mGet st.guests id = none → st.delete_guest id = (st, .error "Guest not found")) ∧
    (∀ g, mGet st.guests id = some g →
      st.delete_guest id =
        ({ guests := mRemove st.guests id, rooms := st.rooms ++ [g.room] }, .ok true) ∧
      (st.delete_guest id).1.get_guest id = none) := by
  constructor
  · intro h
    unfold HotelInk.delete_guest
    rw [h]
  · intro g h
    constructor
    · unfold HotelInk.delete_guest
      rw [h]
    · unfold HotelInk.delete_guest HotelInk.get_guest
      rw [h]
      simp [mGet_mRemove]

/-- Witness for C6: deleting the only guest empties the map, appends room 5
to the pool, and `get_guest` afterwards returns nothing. -/
theorem delete_guest_spec_witness :
    ((HotelInk.default.add_guest 0 123456789 "Ana" "a@x.com" .Credit 5).1.delete_guest
        123456789 =
      ({ guests := mRemove (HotelInk.default.add_guest 0 123456789 "Ana" "a@x.com"
            .Credit 5).1.guests 123456789,
         rooms := (HotelInk.default.add_guest 0 123456789 "Ana" "a@x.com"
            .Credit 5).1.rooms ++ [(5 : Nat)] }, .ok true)) ∧
    ((HotelInk.default.add_guest 0 123456789 "Ana" "a@x.com" .Credit 5).1.delete_guest
        123456789).1.get_guest 123456789 = none :=
  (delete_guest_spec (HotelInk.default.add_guest 0 123456789 "Ana" "a@x.com"
      .Credit 5).1 123456789).2
    (Guest.mk 123456789 "Ana" "a@x.com" .Credit 0 5) (by decide)

/-! ## C7: the check-in field is never rewritten by `update_guest` -/

theorem update_tail_checkin (st : HotelInk) (g : Guest)
    (payment : Option PaymentMethod) (room : Option Nat)
    (hok : (HotelInk.update_tail st g payment room).2 = .ok true) :
    ∃ g2, mGet (HotelInk.update_tail st g payment room).1.guests g.id = some g2 ∧
      g2.checkin = g.checkin := by
  cases payment with
  | none =>
    cases room with
    | none =>
      refine ⟨g, ?_, rfl⟩
      simp [HotelInk.update_tail, mGet_mInsert]
    | some r =>
      by_cases hr : r ∈ st.rooms
      · refine ⟨{ g with room := r }, ?_, rfl⟩
        simp [HotelInk.update_tail, hr, mGet_mInsert]
      · simp [HotelInk.update_tail, hr] at hok
  | some p =>
    cases room with
    | none =>
      refine ⟨{ g with payment := p }, ?_, rfl⟩
      simp [HotelInk.update_tail, mGet_mInsert]
    | some r =>
      by_cases hr : r ∈ st.rooms
      · refine ⟨{ g with payment := p, room := r }, ?_, rfl⟩
        simp [HotelInk.update_tail, hr, mGet_mInsert]
      · simp [HotelInk.update_tail, hr] at hok

theorem update_mid_checkin (st : HotelInk) (g : Guest) (name email : Option String)
    (payment : Option PaymentMethod) (room : Option Nat)
    (hok : (HotelInk.update_mid st g name email payment room).2 = .ok true) :
    ∃ g2, mGet (HotelInk.update_mid st g name email payment room).1.guests g.id =
        some g2 ∧ g2.checkin = g.checkin := by
  cases name with
  | none =>
    cases email with
    | none => exact update_tail_checkin _ _ _ _ hok
    | some e =>
      by_cases he : trimEmpty e = true
      · simp [HotelInk.update_mid, he] at hok
      · simp only [HotelInk.update_mid, he, if_false, Bool.false_eq_true] at hok ⊢
        exact update_tail_checkin _ _ _ _ hok
  | some n =>
    by_cases hn : trimEmpty n = true
    · simp [HotelInk.update_mid, hn] at hok
    · cases email with
      | none =>
        simp only [HotelInk.update_mid, hn, if_false, Bool.false_eq_true] at hok ⊢
        exact update_tail_checkin _ _ _ _ hok
      | some e =>
        by_cases he : trimEmpty e = true
        · simp [HotelInk.update_mid, hn, he] at hok
        · simp only [HotelInk.update_mid, hn, he, if_false, Bool.false_eq_true] at hok ⊢
          exact update_tail_checkin _ _ _ _ hok

/-- C7: `update_guest` takes no check-in input and, whenever it succeeds on a
stored record (under the supplied new id if any, the old one otherwise), the
record it leaves behind carries the check-in value the record already had, for
every combination of supplied fields. -/
theorem update_guest_preserves_checkin (st : HotelInk) (id : Nat)
    (new_id : Option Nat) (name email : Option String)
    (payment : Option PaymentMethod) (room : Option Nat) (g : Guest)
    (hg : mGet st.guests id = some g)
    (hok : (st.update_guest id new_id name email payment room).2 = .ok true) :
    ∃ g2, mGet (st.update_guest id new_id name email payment room).1.guests
        (new_id.getD g.id) = some g2 ∧ g2.checkin = g.checkin := by
  cases new_id with
  | none =>
    simp only [HotelInk.update_guest, hg, Option.getD_none] at hok ⊢
    exact update_mid_checkin _ _ _ _ _ _ hok
  | some nid =>
    by_cases hid : id ≤ 99999999 ∨ id > 999999999
    · simp [HotelInk.update_guest, hg, hid] at hok
    · simp only [HotelInk.update_guest, hg, hid, if_false, Option.getD_some] at hok ⊢
      exact update_mid_checkin _ _ _ _ _ _ hok

/-- Witness for C7: updating name, email, payment and room of the round-trip
guest keeps the original check-in timestamp. -/
theorem update_guest_preserves_checkin_witness :
    ∃ g2, mGet ((HotelInk.default.add_guest 77 123456789 "Ana" "a@x.com"
          .Credit 5).1.update_guest 123456789 none (some "Bia") (some "b@y.com")
          (some .Pix) (some 6)).1.guests
        ((none : Option Nat).getD (Guest.mk 123456789 "Ana" "a@x.com" .Credit 77 5).id) =
        some g2 ∧
      g2.checkin = (Guest.mk 123456789 "Ana" "a@x.com" .Credit 77 5).checkin :=
  update_guest_preserves_checkin
    (HotelInk.default.add_guest 77 123456789 "Ana" "a@x.com" .Credit 5).1
    123456789 none (some "Bia") (some "b@y.com") (some .Pix) (some 6)
    (Guest.mk 123456789 "Ana" "a@x.com" .Credit 77 5) (by decide) (by decide)

/-! ## C8: totality and epoch fallback of `convert_timestamp` -/

/-- C8: for every `u64` timestamp the conversion pipeline is total: the
`to_i64` cast and the `checked_sub` of the fixed 3-hour offset always succeed
(so their epoch fallbacks are never even needed), the rendered string is the
RFC 3339 rendering of whatever `from_timestamp_opt` yields with fallback `0`,
and whenever `from_timestamp_opt` fails the rendered string is the epoch
instant. -/
theorem convert_timestamp_fallback (t : Nat) (h : t < 2 ^ 64) :
    toI64 (t / 1000) = some ((t / 1000 : Nat) : Int) ∧
    checkedSub ((t / 1000 : Nat) : Int) (3 * 3600) =
      some (((t / 1000 : Nat) : Int) - 10800) ∧
    convert_timestamp t =
      toRfc3339 ((fromTimestampOpt (((t / 1000 : Nat) : Int) - 10800)).getD 0) ∧
    (fromTimestampOpt (((t / 1000 : Nat) : Int) - 10800) = none →
      convert_timestamp t = "1970-01-01T00:00:00+00:00") := by
  have hle : t / 1000 ≤ 9223372036854775807 := by omega
  have h1 : ((t / 1000 : Nat) : Int) ≤ 9223372036854775807 := by exact_mod_cast hle
  have h0 : (0 : Int) ≤ ((t / 1000 : Nat) : Int) := Int.ofNat_nonneg _
  have e1 : toI64 (t / 1000) = some ((t / 1000 : Nat) : Int) := by
    unfold toI64 i64Max
    rw [if_pos h1]
  have e2 : checkedSub ((t / 1000 : Nat) : Int) (3 * 3600) =
      some (((t / 1000 : Nat) : Int) - 10800) := by
    unfold checkedSub i64Min i64Max
    rw [if_pos (by constructor <;> omega)]
    norm_num
  have e3 : convert_timestamp t =
      toRfc3339 ((fromTimestampOpt (((t / 1000 : Nat) : Int) - 10800)).getD 0) := by
    simp only [convert_timestamp, e1, e2, Option.getD_some]
  refine ⟨e1, e2, e3, fun hn => ?_⟩
  rw [e3, hn]
  decide

/-- Witness for C8: `2^63` ms is beyond chrono's representable range, and
`convert_timestamp` indeed renders the epoch instant for it. -/
theorem convert_timestamp_fallback_witness :
    (2 : Nat) ^ 63 < 2 ^ 64 ∧
    fromTimestampOpt (((2 ^ 63 / 1000 : Nat) : Int) - 10800) = none ∧
    convert_timestamp (2 ^ 63) = "1970-01-01T00:00:00+00:00" :=
  ⟨by norm_num, by decide,
   (convert_timestamp_fallback (2 ^ 63) (by norm_num)).2.2.2 (by decide)⟩

/-! ## C9: a guest can never re-select their occupied room -/

/-- C9: in any state satisfying the room-exclusivity invariant, asking
`update_guest` to move a stored guest to the room it already occupies fails
with `"Room not available"` and leaves the state untouched, because an
occupied room is never in the pool. -/
theorem update_own_room_unavailable (st : HotelInk) (id : Nat) (g : Guest)
    (hg : mGet st.guests id = some g) (hinv : roomInvariant st = true) :
    st.update_guest id none none none none (some g.room) =
      (st, .error "Room not available") := by
  have hocc : g.room ∈ occupiedRooms st :=
    List.mem_map.mpr ⟨(id, g), mGet_mem st.guests id g hg, rfl⟩
  have hnm : g.room ∉ st.rooms := by
    intro hmem
    unfold roomInvariant at hinv
    simp only [Bool.and_eq_true, List.all_eq_true] at hinv
    obtain ⟨⟨hxor, _⟩, hoccb⟩ := hinv
    have hb : 1 ≤ g.room ∧ g.room ≤ 20 := by
      have := hoccb g.room hocc
      simpa using this
    have hr : g.room ∈ List.range' 1 20 :=
      List.mem_range'.mpr ⟨g.room - 1, by omega, by omega⟩
    have hx := hxor g.room hr
    have hoc : (occupiedRooms st).contains g.room = true := by simpa using hocc
    have hcm : st.rooms.contains g.room = true := by simpa using hmem
    rw [hoc, hcm] at hx
    simp at hx
  simp [HotelInk.update_guest, hg, HotelInk.update_mid, HotelInk.update_tail, hnm]

/-- Witness for C9: after adding the round-trip guest in room 5, updating that
guest to room 5 fails with `"Room not available"`. -/
theorem update_own_room_unavailable_witness :
    (HotelInk.default.add_guest 0 123456789 "Ana" "a@x.com" .Credit 5).1.update_guest
        123456789 none none none none
        (some (Guest.mk 123456789 "Ana" "a@x.com" .Credit 0 5).room) =
      ((HotelInk.default.add_guest 0 123456789 "Ana" "a@x.com" .Credit 5).1,
        .error "Room not available") :=
  update_own_room_unavailable
    (HotelInk.default.add_guest 0 123456789 "Ana" "a@x.com" .Credit 5).1
    123456789 (Guest.mk 123456789 "Ana" "a@x.com" .Credit 0 5) (by decide) (by decide)

/-! ## C1, C2, C3: where the code deviates from the specified behaviour -/

/-- C1 (code bug): adding twice under the same id leaks the first room. Both
`add_guest` calls succeed, yet afterwards room 5 is neither in the pool nor
occupied by any stored guest, so the room-exclusivity invariant I1 is dead. -/
theorem dup_add_breaks_room_invariant :
    ((runOps [Op.addOp 0 123456789 "Ana" "a@x.com" .Credit 5]).add_guest 1
        123456789 "Ana" "a@x.com" .Credit 6).2 = .ok () ∧
    roomInvariant (runOps [Op.addOp 0 123456789 "Ana" "a@x.com" .Credit 5,
        Op.addOp 1 123456789 "Ana" "a@x.com" .Credit 6]) = false ∧
    (runOps [Op.addOp 0 123456789 "Ana" "a@x.com" .Credit 5,
        Op.addOp 1 123456789 "Ana" "a@x.com" .Credit 6]).rooms.contains 5 = false ∧
    (occupiedRooms (runOps [Op.addOp 0 123456789 "Ana" "a@x.com" .Credit 5,
        Op.addOp 1 123456789 "Ana" "a@x.com" .Credit 6])).contains 5 = false := by
  decide

/-- C2 (code bug): supplying a valid `new_id` together with an empty name
makes `update_guest` fail with `"Empty name"` AFTER having removed the record,
so the guest survives under neither the old nor the new id. -/
theorem update_error_loses_guest :
    ((HotelInk.default.add_guest 0 123456789 "Ana" "a@x.com" .Credit 5).1.update_guest
        123456789 (some 222222222) (some "") none none none).2 = .error "Empty name" ∧
    mGet ((HotelInk.default.add_guest 0 123456789 "Ana" "a@x.com"
        .Credit 5).1.update_guest 123456789 (some 222222222) (some "") none none
        none).1.guests 123456789 = none ∧
    mGet ((HotelInk.default.add_guest 0 123456789 "Ana" "a@x.com"
        .Credit 5).1.update_guest 123456789 (some 222222222) (some "") none none
        none).1.guests 222222222 = none := by
  decide

/-- C3 (code bug): the `new_id` branch of `update_guest` range-checks the OLD
key instead of the supplied `new_id`: the out-of-range new id `5` is accepted
(the record ends up stored under key 5), and afterwards restoring the valid id
`123456789` is rejected with `"Invalid RG"` because the old key 5 is now
out of range. -/
theorem update_new_id_not_validated :
    ((HotelInk.default.add_guest 0 123456789 "Ana" "a@x.com" .Credit 5).1.update_guest
        123456789 (some 5) none none none none).2 = .ok true ∧
    mGet ((HotelInk.default.add_guest 0 123456789 "Ana" "a@x.com"
        .Credit 5).1.update_guest 123456789 (some 5) none none none
        none).1.guests 5 = some (Guest.mk 5 "Ana" "a@x.com" .Credit 0 5) ∧
    (((HotelInk.default.add_guest 0 123456789 "Ana" "a@x.com" .Credit 5).1.update_guest
        123456789 (some 5) none none none none).1.update_guest 5 (some 123456789)
        none none none none).2 = .error "Invalid RG" := by
  decide

end HotelSpec
